import Mathlib

/-!
Shallow embedding of the ETL pipeline in `src/etl.py` (function `main`).

The script resolves run parameters (downloading workspace files for
dataset-typed parameters), builds graph node/relationship records from a
config parameter triple and from three CSV tables, and writes them to a
remote graph store: optional delete-all, then one node bulk-create call,
then one relationship bulk-create call.

Python primitives are modelled on `List Char` so that everything reduces
in the kernel: `str.replace`, substring containment (`in`), `startswith`,
`split` + last component, `os.path.join`, `int()` parsing, and dict
lookup with last-binding-wins semantics.
-/

/-- Python string containment `pat in s`, on character lists:
`pat` occurs as a contiguous segment of `s`. -/
def containsSeg (pat : List Char) : List Char → Bool
  | [] => pat.isEmpty
  | c :: rest => pat.isPrefixOf (c :: rest) || containsSeg pat rest

/-- Python `pat in s` for strings. -/
def strContains (s pat : String) : Bool :=
  containsSeg pat.data s.data

/-- Fuel-driven worker for Python `str.replace`: replaces each
non-overlapping occurrence of `pat`, scanning left to right.  The fuel is
instantiated with the length of the subject, which suffices because every
step consumes at least one character. -/
def replaceFuel (pat rep : List Char) : Nat → List Char → List Char
  | 0, s => s
  | _+1, [] => []
  | fuel+1, c :: rest =>
    if pat ≠ [] ∧ pat.isPrefixOf (c :: rest) then
      rep ++ replaceFuel pat rep fuel ((c :: rest).drop pat.length)
    else
      c :: replaceFuel pat rep fuel rest

/-- Python `s.replace(pat, rep)` for a non-empty pattern. -/
def strReplace (s pat rep : String) : String :=
  ⟨replaceFuel pat.data rep.data s.data.length s.data⟩

/-- Python `s.startswith(pat)`. -/
def strStartsWith (s pat : String) : Bool :=
  pat.data.isPrefixOf s.data

/-- Python `s.endswith(pat)`. -/
def strEndsWith (s pat : String) : Bool :=
  pat.data.isSuffixOf s.data

/-- Python `s.split(sep)[-1]` for `sep = "/"`: the characters after the
last slash (the whole string when no slash occurs). -/
def lastSegment (s : String) : String :=
  ⟨s.data.foldl (fun acc c => if c = '/' then [] else acc ++ [c]) []⟩

/-- Python `os.path.join(d, b)` for a base name `b` that contains no
slash (the only use in the script): inserts a separator unless `d`
already ends with one. -/
def pyJoin (d b : String) : String :=
  if strEndsWith d "/" then d ++ b else d ++ "/" ++ b

/-- A single-quote character, used in the hand-built params payloads. -/
def apos : String := ⟨[Char.ofNat 39]⟩

/-- Python `int()` digit scanner after the first digit: digits, with a
single underscore allowed only between two digits. -/
def digitsAux : Nat → List Char → Option Nat
  | acc, [] => some acc
  | acc, c :: rest =>
    if c.isDigit then digitsAux (acc * 10 + (c.toNat - 48)) rest
    else if c = '_' then
      match rest with
      | [] => none
      | d :: rest2 =>
        if d.isDigit then digitsAux (acc * 10 + (d.toNat - 48)) rest2 else none
    else none

/-- Nonempty digit run (Python `int()` body, after sign). -/
def digitsCore : List Char → Option Nat
  | [] => none
  | c :: rest => if c.isDigit then digitsAux (c.toNat - 48) rest else none

/-- Python whitespace stripped by `int()`. -/
def isPyWs (c : Char) : Bool :=
  c = ' ' || c = '\t' || c = '\n' || c = '\r' || c = Char.ofNat 11 || c = Char.ofNat 12

/-- Python `int(s)` for a string argument: strip whitespace, optional
sign, decimal digits with underscores between digits; `none` models a
`ValueError`. -/
def pyIntParse (s : String) : Option Int :=
  let t := (s.data.dropWhile isPyWs).reverse.dropWhile isPyWs |>.reverse
  match t with
  | '+' :: rest => (digitsCore rest).map Int.ofNat
  | '-' :: rest => (digitsCore rest).map (fun n => -(Int.ofNat n))
  | cs => (digitsCore cs).map Int.ofNat

/-- Node Record (`etl.py` dict literals with keys type/name/params). -/
structure NodeRecord where
  type : String
  name : String
  params : String
deriving DecidableEq

/-- Relationship Record (`etl.py` dict literals with keys
type/source/target/name/params). -/
structure RelRecord where
  type : String
  source : String
  target : String
  name : String
  params : String
deriving DecidableEq

/-- A CSV row as produced by `csv.DictReader`: an association of column
name to cell text. -/
abbrev Row := List (String × String)

/-- Python `row[k]` viewed totally: `none` models a `KeyError`. -/
def rowGet (r : Row) (k : String) : Option String :=
  (r.find? (fun kv => kv.1 = k)).map (fun kv => kv.2)

/-- A run parameter from the runner description
(`runner_data.parameters_values` entries). -/
structure RunParameter where
  parameter_id : String
  value : String
  var_type : String
deriving DecidableEq

/-- The remote environment the parameter loop consults: the
`AZURE_STORAGE_CONTAINER_BLOB_PREFIX` connector value of each dataset id
(`none` models the key being absent, i.e. the Python default `False`),
the workspace file index, and `CSM_PARAMETERS_ABSOLUTE_PATH`. -/
structure EtlEnv where
  blobPfx : String → Option String
  allFiles : List String
  paramsPath : String

/-- The observable outcome of one iteration of the parameter loop:
the dict binding it produces (none when the loop `continue`s), the
directories created, and the local file writes `(target path, remote
file name)` in download order. -/
structure ParamStep where
  entry : Option (String × String)
  mkdirs : List String
  writes : List (String × String)
deriving DecidableEq

/-- One iteration of the loop over `runner_data.parameters_values`
(`etl.py` lines 58-98). -/
def resolveParam (env : EtlEnv) (p : RunParameter) : ParamStep :=
  if p.var_type = "%DATASETID%" then
    match env.blobPfx p.value with
    | none => { entry := none, mkdirs := [], writes := [] }
    | some base =>
      if base = "" || !strContains base "%WORKSPACE_FILE%" then
        { entry := none, mkdirs := [], writes := [] }
      else
        let fileName := strReplace base "%WORKSPACE_FILE%/" ""
        let dir := env.paramsPath ++ "/" ++ p.parameter_id
        let existing := env.allFiles.filter (fun f => strStartsWith f fileName)
        { entry := some (dir, p.var_type),
          mkdirs := [dir],
          writes := existing.map (fun e => (pyJoin dir (lastSegment e), e)) }
  else
    { entry := some (p.value, p.var_type), mkdirs := [], writes := [] }

/-- The bindings the loop inserts into the `parameters` dict, in loop
order. -/
def resolveEntries (env : EtlEnv) (ps : List RunParameter) :
    List (String × String × String) :=
  ps.filterMap (fun p => (resolveParam env p).entry.map (fun e => (p.parameter_id, e)))

/-- Lookup in a dict built by successive assignments: the last binding
for a key wins, `none` models a `KeyError`. -/
def pyDictGet (d : List (String × String × String)) (k : String) :
    Option (String × String) :=
  (d.reverse.find? (fun b => b.1 = k)).map (fun b => b.2)

/-- Total view of a mandatory row access: `KeyError` becomes `.error`. -/
def requireCol (r : Row) (k : String) : Except String String :=
  match rowGet r k with
  | some v => Except.ok v
  | none => Except.error ("KeyError: " ++ k)

/-- The params payload of a Customer node (`etl.py` lines 128-131). -/
def customerParams (idv sat ssat thirsty : String) : String :=
  "Name: " ++ apos ++ idv ++ apos ++ ",Satisfaction: " ++ sat ++
    ",SurroundingSatisfaction: " ++ ssat ++ ",Thirsty: " ++ thirsty

/-- One Customer row to one Node Record (`etl.py` lines 125-133). -/
def mkCustomer (r : Row) : Except String NodeRecord := do
  let idv ← requireCol r "id"
  let sat ← requireCol r "Satisfaction"
  let ssat ← requireCol r "SurroundingSatisfaction"
  let thirsty ← requireCol r "Thirsty"
  Except.ok { type := "Customer", name := idv,
              params := customerParams idv sat ssat thirsty }

/-- The fixed placeholder params payload of every relationship record. -/
def relParams : String := "a: " ++ apos ++ "a" ++ apos

/-- One edge row to one Relationship Record (`etl.py` lines 140-146 and
154-160, parametrised by the record type). -/
def mkRel (ty : String) (r : Row) : Except String RelRecord := do
  let src ← requireCol r "source"
  let tgt ← requireCol r "target"
  let nm ← requireCol r "name"
  Except.ok { type := ty, source := src, target := tgt, name := nm,
              params := relParams }

/-- The row loop over a CSV reader: process rows in file order, append a
record per row, abort on the first failing row. -/
def mapRows (f : Row → Except String α) : List Row → Except String (List α)
  | [] => Except.ok []
  | r :: rest => do
    let a ← f r
    let as ← mapRows f rest
    Except.ok (a :: as)

/-- The `customers` list built from `Nodes/Customer.csv`. -/
def mapCustomers (rows : List Row) : Except String (List NodeRecord) :=
  mapRows mkCustomer rows

/-- The `satisfactions` / `links` lists built from the two edge CSVs. -/
def mapRels (ty : String) (rows : List Row) : Except String (List RelRecord) :=
  mapRows (mkRel ty) rows

/-- Mandatory dict access `parameters[k]` (`KeyError` as `.error`). -/
def requireParam (d : List (String × String × String)) (k : String) :
    Except String (String × String) :=
  match pyDictGet d k with
  | some v => Except.ok v
  | none => Except.error ("KeyError: " ++ k)

/-- Python `int(s)` with `ValueError` as `.error`. -/
def pyInt (s : String) : Except String Int :=
  match pyIntParse s with
  | some n => Except.ok n
  | none => Except.error ("ValueError: " ++ s)

/-- The params payload of the Bar config node (`etl.py` lines 109-111):
each value is parsed by `int()` and rendered back in decimal. -/
def barParams (nw rq st : Int) : String :=
  "NbWaiters: " ++ toString nw ++ ",RestockQty: " ++ toString rq ++
    ",Stock: " ++ toString st

/-- The Config Record Builder (`etl.py` lines 106-113): one Bar node from
the three numeric parameters, in source evaluation order. -/
def configRecord (d : List (String × String × String)) :
    Except String NodeRecord := do
  let nw ← requireParam d "num_waiters"
  let nwv ← pyInt nw.1
  let rq ← requireParam d "restock_quantity"
  let rqv ← pyInt rq.1
  let st ← requireParam d "stock"
  let stv ← pyInt st.1
  Except.ok { type := "Bar", name := "MyBar", params := barParams nwv rqv stv }

/-- A remote graph-store mutation issued by the writer. -/
inductive ApiCall where
  | deleteAll (dataset_id : String)
  | createNodes (dataset_id : String) (props : List NodeRecord)
  | createRels (dataset_id : String) (props : List RelRecord)
deriving DecidableEq

/-- The Graph Writer (`etl.py` lines 165-194): delete-all when the
queried dataset status is truthy, then the node bulk-create, then the
relationship bulk-create.  The commented-out endpoint remapping (lines
178-188) is not executed, so the relationship records are passed
verbatim. -/
def graphWriterTrace (status : Bool) (dsId : String)
    (nodes : List NodeRecord) (rels : List RelRecord) : List ApiCall :=
  (if status then [ApiCall.deleteAll dsId] else []) ++
    [ApiCall.createNodes dsId nodes, ApiCall.createRels dsId rels]

/-- The post-resolution pipeline (`etl.py` lines 104-194), from the
resolved parameter dict and the three CSV tables of the extracted
reference tree to the sequence of remote graph-store calls.  The steps
occur in source order: Bar config record, `bar_instance` lookup, the
three CSV loops, then the writer. -/
def runEtl (d : List (String × String × String))
    (custRows satRows linkRows : List Row) (status : Bool) (dsId : String) :
    Except String (List ApiCall) := do
  let bar ← configRecord d
  let _basePath ← requireParam d "bar_instance"
  let customers ← mapCustomers custRows
  let sats ← mapRels "satisfaction" satRows
  let links ← mapRels "bar_vertex" linkRows
  Except.ok (graphWriterTrace status dsId ([bar] ++ customers) (sats ++ links))

deriving instance DecidableEq for Except

/-! ### Concrete fixtures used by closed theorems and witnesses -/

/-- The resolved parameter dict of the end-to-end scenario. -/
def demoDict : List (String × String × String) :=
  [("num_waiters", "5", "STRING"),
   ("restock_quantity", "10", "STRING"),
   ("stock", "100", "STRING"),
   ("bar_instance", "/mnt/scenariorun-data/bar_instance", "%DATASETID%")]

/-- First Customer.csv row of the scenario. -/
def custRow1 : Row :=
  [("id", "Customer1"), ("Satisfaction", "0"),
   ("SurroundingSatisfaction", "0"), ("Thirsty", "false")]

/-- Second Customer.csv row of the scenario. -/
def custRow2 : Row :=
  [("id", "Customer2"), ("Satisfaction", "1"),
   ("SurroundingSatisfaction", "1"), ("Thirsty", "true")]

/-- The single arc_Satisfaction.csv row of the scenario. -/
def satRowD : Row :=
  [("source", "Customer1"), ("target", "Customer2"), ("name", "arc1")]

/-- The single Bar_vertex.csv row of the scenario. -/
def linkRowD : Row :=
  [("source", "Customer1"), ("target", "MyBar"), ("name", "link1")]

/-- The Bar config node the scenario produces. -/
def demoBar : NodeRecord :=
  { type := "Bar", name := "MyBar",
    params := "NbWaiters: 5,RestockQty: 10,Stock: 100" }

/-- The two Customer nodes the scenario produces. -/
def demoCust1 : NodeRecord :=
  { type := "Customer", name := "Customer1",
    params := customerParams "Customer1" "0" "0" "false" }

/-- Second Customer node of the scenario. -/
def demoCust2 : NodeRecord :=
  { type := "Customer", name := "Customer2",
    params := customerParams "Customer2" "1" "1" "true" }

/-- An edge row whose source has no corresponding Customer or Bar node. -/
def ghostRow : Row :=
  [("source", "Ghost"), ("target", "Customer1"), ("name", "edge1")]

/-- A workspace environment for witnesses: one downloadable dataset
(d-inst), one dataset whose storage-prefix lacks the marker (d-bad). -/
def demoEnv : EtlEnv :=
  { blobPfx := fun v =>
      if v = "d-inst" then some "%WORKSPACE_FILE%/bar_instance/"
      else if v = "d-bad" then some "STUFF"
      else none,
    allFiles := ["bar_instance/brewery_instance.zip", "other/file.csv"],
    paramsPath := "/mnt/scenariorun-data" }

/-- Run parameters for witnesses: three literals, one downloadable
dataset parameter and one non-downloadable dataset parameter. -/
def demoRunParams : List RunParameter :=
  [⟨"num_waiters", "5", "STRING"⟩, ⟨"restock_quantity", "10", "STRING"⟩,
   ⟨"stock", "100", "STRING"⟩, ⟨"bar_instance", "d-inst", "%DATASETID%"⟩,
   ⟨"skipme", "d-bad", "%DATASETID%"⟩]

/-- A Customer row has all four expected columns. -/
def hasCustCols (r : Row) : Bool :=
  (rowGet r "id").isSome && (rowGet r "Satisfaction").isSome &&
  (rowGet r "SurroundingSatisfaction").isSome && (rowGet r "Thirsty").isSome

/-- The three config parameters are present and integer-parseable. -/
def configGood (d : List (String × String × String)) : Bool :=
  ((pyDictGet d "num_waiters").bind (fun v => pyIntParse v.1)).isSome &&
  ((pyDictGet d "restock_quantity").bind (fun v => pyIntParse v.1)).isSome &&
  ((pyDictGet d "stock").bind (fun v => pyIntParse v.1)).isSome

/-- The satisfaction edge of the scenario. -/
def demoSatRec : RelRecord :=
  { type := "satisfaction", source := "Customer1", target := "Customer2",
    name := "arc1", params := relParams }

/-- The bar-vertex edge of the scenario. -/
def demoLinkRec : RelRecord :=
  { type := "bar_vertex", source := "Customer1", target := "MyBar",
    name := "link1", params := relParams }

/-- The full call trace of the scenario. -/
def demoTrace : List ApiCall :=
  [ApiCall.deleteAll "d-demo",
   ApiCall.createNodes "d-demo" [demoBar, demoCust1, demoCust2],
   ApiCall.createRels "d-demo" [demoSatRec, demoLinkRec]]

/-! ### Claim theorems -/

/-- C9: in the end-to-end scenario (num_waiters=5, restock_quantity=10,
stock=100, a bar_instance directory, a Customer.csv with 2 rows and two
edge CSVs with 1 row each) the pipeline issues exactly one node
bulk-create call carrying 3 Node Records (the Bar config record first,
then the 2 Customer records in row order) and exactly one relationship
bulk-create call carrying 2 Relationship Records (the satisfaction edge
then the bar-vertex edge). -/
theorem end_to_end_scenario :
    runEtl demoDict [custRow1, custRow2] [satRowD] [linkRowD] true "d-demo" =
      Except.ok
        [ApiCall.deleteAll "d-demo",
         ApiCall.createNodes "d-demo" [demoBar, demoCust1, demoCust2],
         ApiCall.createRels "d-demo"
           [{ type := "satisfaction", source := "Customer1", target := "Customer2",
              name := "arc1", params := relParams },
            { type := "bar_vertex", source := "Customer1", target := "MyBar",
              name := "link1", params := relParams }]] ∧
    ([ApiCall.deleteAll "d-demo",
      ApiCall.createNodes "d-demo" [demoBar, demoCust1, demoCust2],
      ApiCall.createRels "d-demo"
        [{ type := "satisfaction", source := "Customer1", target := "Customer2",
           name := "arc1", params := relParams },
         { type := "bar_vertex", source := "Customer1", target := "MyBar",
           name := "link1", params := relParams }]].countP
      (fun c => match c with | ApiCall.createNodes _ _ => true | _ => false)) = 1 ∧
    ([ApiCall.deleteAll "d-demo",
      ApiCall.createNodes "d-demo" [demoBar, demoCust1, demoCust2],
      ApiCall.createRels "d-demo"
        [{ type := "satisfaction", source := "Customer1", target := "Customer2",
           name := "arc1", params := relParams },
         { type := "bar_vertex", source := "Customer1", target := "MyBar",
           name := "link1", params := relParams }]].countP
      (fun c => match c with | ApiCall.createRels _ _ => true | _ => false)) = 1 := by
  refine ⟨by decide, by decide, by decide⟩

/-- C1: the code does NOT rewrite relationship endpoints to
store-assigned identifiers, and does NOT fail when an endpoint has no
corresponding created node.  Evaluated at a concrete run whose single
edge row references source id Ghost: no created node is named Ghost, yet
the run completes and the relationship bulk-create call receives the
record with the CSV-domain identifiers Ghost / Customer1 verbatim (the
remapping block of `etl.py` lines 178-188 is commented out). -/
theorem relationship_endpoints_not_remapped :
    runEtl demoDict [custRow1, custRow2] [ghostRow] [] false "d-demo" =
      Except.ok
        [ApiCall.createNodes "d-demo" [demoBar, demoCust1, demoCust2],
         ApiCall.createRels "d-demo"
           [{ type := "satisfaction", source := "Ghost", target := "Customer1",
              name := "edge1", params := relParams }]] ∧
    ¬ ("Ghost" ∈ [demoBar, demoCust1, demoCust2].map NodeRecord.name) := by
  refine ⟨by decide, by decide⟩

/-- A pattern starting with a character absent from the subject never
matches, so fuel-driven replacement leaves the subject unchanged. -/
lemma replaceFuel_not_mem (c0 : Char) (pt rep : List Char) :
    ∀ (fuel : Nat) (s : List Char), c0 ∉ s → replaceFuel (c0 :: pt) rep fuel s = s := by
  intro fuel
  induction fuel with
  | zero => intro s _; rfl
  | succ n ih =>
    intro s h
    cases s with
    | nil => rfl
    | cons c cs =>
      have hc : ¬ (c0 = c) := fun he => h (he ▸ List.mem_cons_self c cs)
      have hcs : c0 ∉ cs := fun hm => h (List.mem_cons_of_mem c hm)
      rw [replaceFuel, if_neg, ih cs hcs]
      intro hcontra
      have hpre := hcontra.2
      simp [List.isPrefixOf] at hpre
      exact hc hpre.1

/-- Replacement of a pattern standing at the head of the subject, when
its first character does not recur in the remainder. -/
lemma replaceFuel_head_match (c0 : Char) (pt rep r : List Char) (h : c0 ∉ r) (fuel : Nat) :
    replaceFuel (c0 :: pt) rep (fuel + 1) ((c0 :: pt) ++ r) = rep ++ r := by
  have hcons : (c0 :: pt) ++ r = c0 :: (pt ++ r) := rfl
  rw [hcons, replaceFuel, if_pos, ← hcons, List.drop_left,
    replaceFuel_not_mem c0 pt rep fuel r h]
  constructor
  · intro hx; cases hx
  · exact List.isPrefixOf_iff_prefix.2 (hcons ▸ List.prefix_append (c0 :: pt) r)

/-- C5 (amended): the base file-name used for index matching is the
storage-prefix with each occurrence of the marker-followed-by-slash
segment removed.  When the storage-prefix is the marker segment followed
by marker-free text, the result is exactly that text; but a marker
occurrence that is not followed by a slash is not removed, so the
derived name can still contain the marker. -/
theorem derived_base_strips_marker_segment (rest : String) (h : '%' ∉ rest.data) :
    strReplace ("%WORKSPACE_FILE%/" ++ rest) "%WORKSPACE_FILE%/" "" = rest ∧
    strReplace "%WORKSPACE_FILE%" "%WORKSPACE_FILE%/" "" = "%WORKSPACE_FILE%" := by
  constructor
  · obtain ⟨rl⟩ := rest
    simp only [String.data] at h
    unfold strReplace
    have hd : ("%WORKSPACE_FILE%/" ++ ⟨rl⟩).data = "%WORKSPACE_FILE%/".data ++ rl :=
      String.data_append ..
    rw [hd]
    have hpat : "%WORKSPACE_FILE%/".data = '%' :: "WORKSPACE_FILE%/".data := rfl
    have hlen : ("%WORKSPACE_FILE%/".data ++ rl).length = (rl.length + 16) + 1 := by
      rw [List.length_append]
      have h17 : "%WORKSPACE_FILE%/".data.length = 17 := rfl
      omega
    rw [hlen, hpat, replaceFuel_head_match '%' _ _ rl h (rl.length + 16)]
    rfl
  · decide

/-- C5 (counterexample): the storage-prefix consisting of the bare
marker token contains the marker, but the derived base file-name (the
result of stripping only marker-plus-slash) still contains the marker;
running the loop body on it matches workspace files whose names start
with the marker itself. -/
theorem marker_without_slash_survives :
    strContains "%WORKSPACE_FILE%" "%WORKSPACE_FILE%" = true ∧
    strContains (strReplace "%WORKSPACE_FILE%" "%WORKSPACE_FILE%/" "") "%WORKSPACE_FILE%" = true ∧
    (resolveParam
      { blobPfx := fun v => if v = "ds1" then some "%WORKSPACE_FILE%" else none,
        allFiles := ["data/file.csv", "%WORKSPACE_FILE%data.csv"],
        paramsPath := "/tmp/prm" }
      { parameter_id := "p1", value := "ds1", var_type := "%DATASETID%" }).writes =
      [("/tmp/prm/p1/%WORKSPACE_FILE%data.csv", "%WORKSPACE_FILE%data.csv")] := by
  refine ⟨by decide, by decide, by decide⟩

/-- C5 witness: the amended statement evaluated at the marker-free tail
`reference/`. -/
theorem derived_base_strips_marker_segment_witness :
    strReplace ("%WORKSPACE_FILE%/" ++ "reference/") "%WORKSPACE_FILE%/" "" = "reference/" ∧
    strReplace "%WORKSPACE_FILE%" "%WORKSPACE_FILE%/" "" = "%WORKSPACE_FILE%" :=
  derived_base_strips_marker_segment "reference/" (by decide)

/-- C8: the writer issues the delete-all query against the target
dataset if and only if the queried dataset status is truthy, and the
node bulk-create call occurs at an earlier trace position than the
relationship bulk-create call in every run. -/
theorem graph_writer_order (status : Bool) (dsId : String)
    (nodes : List NodeRecord) (rels : List RelRecord) :
    (ApiCall.deleteAll dsId ∈ graphWriterTrace status dsId nodes rels ↔ status = true) ∧
    ∃ i j, i < j ∧
      (graphWriterTrace status dsId nodes rels).get? i =
        some (ApiCall.createNodes dsId nodes) ∧
      (graphWriterTrace status dsId nodes rels).get? j =
        some (ApiCall.createRels dsId rels) := by
  cases status with
  | false =>
    refine ⟨?_, 0, 1, by omega, rfl, rfl⟩
    simp [graphWriterTrace]
  | true =>
    refine ⟨?_, 1, 2, by omega, rfl, rfl⟩
    simp [graphWriterTrace]

/-- C8 witness: the ordering statement evaluated on a concrete truthy
run. -/
theorem graph_writer_order_witness :
    (ApiCall.deleteAll "d-w" ∈ graphWriterTrace true "d-w" [demoBar] [] ↔ true = true) ∧
    ∃ i j, i < j ∧
      (graphWriterTrace true "d-w" [demoBar] []).get? i =
        some (ApiCall.createNodes "d-w" [demoBar]) ∧
      (graphWriterTrace true "d-w" [demoBar] []).get? j =
        some (ApiCall.createRels "d-w" []) :=
  graph_writer_order true "d-w" [demoBar] []

/-- Every binding of the resolved dict stems from some run parameter
whose loop iteration produced it, and carries that parameter's id as
key. -/
lemma mem_resolveEntries (env : EtlEnv) (ps : List RunParameter) (b : String × String × String)
    (h : b ∈ resolveEntries env ps) :
    ∃ q ∈ ps, (resolveParam env q).entry = some b.2 ∧ b.1 = q.parameter_id := by
  simp only [resolveEntries, List.mem_filterMap] at h
  obtain ⟨q, hq, he⟩ := h
  obtain ⟨e, hent, hbe⟩ := Option.map_eq_some'.1 he
  subst hbe
  exact ⟨q, hq, hent, rfl⟩

/-- C2: every run parameter whose var_type is not the dataset sentinel
ends up in the resolved dict under its parameter_id, with its input
value unchanged and its original var_type. -/
theorem literal_param_identity (env : EtlEnv) (ps : List RunParameter) (p : RunParameter)
    (hmem : p ∈ ps) (hty : p.var_type ≠ "%DATASETID%")
    (hnd : (ps.map RunParameter.parameter_id).Nodup) :
    pyDictGet (resolveEntries env ps) p.parameter_id = some (p.value, p.var_type) := by
  induction ps with
  | nil => cases hmem
  | cons q qs ih =>
    rw [List.map_cons, List.nodup_cons] at hnd
    obtain ⟨hqnot, hndqs⟩ := hnd
    rcases List.mem_cons.1 hmem with heq | hmem2
    · subst heq
      have hent : (resolveParam env p).entry = some (p.value, p.var_type) := by
        simp [resolveParam, hty]
      have hre : resolveEntries env (p :: qs) =
          (p.parameter_id, p.value, p.var_type) :: resolveEntries env qs := by
        simp [resolveEntries, List.filterMap_cons, hent]
      rw [hre]
      unfold pyDictGet
      rw [List.reverse_cons, List.find?_append]
      have hnone : (resolveEntries env qs).reverse.find?
          (fun b => b.1 = p.parameter_id) = none := by
        apply List.find?_eq_none.2
        intro b hb
        obtain ⟨q2, hq2, _, hkey⟩ := mem_resolveEntries env qs b (List.mem_reverse.1 hb)
        simp only [decide_eq_true_eq]
        intro hbp
        exact hqnot (hbp ▸ hkey ▸ List.mem_map_of_mem RunParameter.parameter_id hq2)
      rw [hnone]
      simp [List.find?, Option.or]
    · cases hent2 : (resolveParam env q).entry with
      | none =>
        have hre : resolveEntries env (q :: qs) = resolveEntries env qs := by
          simp [resolveEntries, List.filterMap_cons, hent2]
        rw [hre]; exact ih hmem2 hndqs
      | some e =>
        have hre : resolveEntries env (q :: qs) =
            (q.parameter_id, e) :: resolveEntries env qs := by
          simp [resolveEntries, List.filterMap_cons, hent2]
        rw [hre]
        have hih := ih hmem2 hndqs
        unfold pyDictGet at hih ⊢
        rw [List.reverse_cons, List.find?_append]
        obtain ⟨b, hb, hb2⟩ := Option.map_eq_some'.1 hih
        rw [hb]
        simp [Option.or, hb2]

/-- C2 witness: the literal parameter stock resolves to its own value. -/
theorem literal_param_identity_witness :
    pyDictGet (resolveEntries demoEnv demoRunParams) "stock" = some ("100", "STRING") :=
  literal_param_identity demoEnv demoRunParams ⟨"stock", "100", "STRING"⟩
    (by decide) (by decide) (by decide)

/-- C3: a dataset-typed parameter whose storage-prefix configuration is
absent, empty, or lacks the marker token produces no dict binding, no
directory and no file write; its id is absent from the resolved dict,
so a later mandatory lookup of it is a key-lookup failure. -/
theorem non_downloadable_param_skipped (env : EtlEnv) (ps : List RunParameter)
    (p : RunParameter) (hmem : p ∈ ps) (hty : p.var_type = "%DATASETID%")
    (hskip : env.blobPfx p.value = none ∨
      ∃ base, env.blobPfx p.value = some base ∧
        (base = "" ∨ strContains base "%WORKSPACE_FILE%" = false))
    (hnd : (ps.map RunParameter.parameter_id).Nodup) :
    resolveParam env p = { entry := none, mkdirs := [], writes := [] } ∧
    pyDictGet (resolveEntries env ps) p.parameter_id = none ∧
    requireParam (resolveEntries env ps) p.parameter_id =
      Except.error ("KeyError: " ++ p.parameter_id) := by
  have hstep : resolveParam env p = { entry := none, mkdirs := [], writes := [] } := by
    rcases hskip with hnone | ⟨base, hb, hcases⟩
    · simp [resolveParam, hty, hnone]
    · rcases hcases with hemp | hnomark
      · simp [resolveParam, hty, hb, hemp]
      · simp [resolveParam, hty, hb, hnomark]
  have hget : pyDictGet (resolveEntries env ps) p.parameter_id = none := by
    have hnone : (resolveEntries env ps).reverse.find?
        (fun b => b.1 = p.parameter_id) = none := by
      apply List.find?_eq_none.2
      intro b hb
      obtain ⟨q, hq, hent, hkey⟩ := mem_resolveEntries env ps b (List.mem_reverse.1 hb)
      simp only [decide_eq_true_eq]
      intro hbp
      have hqp : q = p := by
        apply List.inj_on_of_nodup_map hnd hq hmem
        rw [← hkey, hbp]
      rw [hqp, hstep] at hent
      cases hent
    unfold pyDictGet
    rw [hnone]
    rfl
  exact ⟨hstep, hget, by simp [requireParam, hget]⟩

/-- C3 witness: the marker-less dataset parameter skipme is skipped and
later mandatory lookup fails. -/
theorem non_downloadable_param_skipped_witness :
    resolveParam demoEnv ⟨"skipme", "d-bad", "%DATASETID%"⟩ =
      { entry := none, mkdirs := [], writes := [] } ∧
    pyDictGet (resolveEntries demoEnv demoRunParams) "skipme" = none ∧
    requireParam (resolveEntries demoEnv demoRunParams) "skipme" =
      Except.error ("KeyError: " ++ "skipme") :=
  non_downloadable_param_skipped demoEnv demoRunParams ⟨"skipme", "d-bad", "%DATASETID%"⟩
    (by decide) (by decide)
    (Or.inr ⟨"STUFF", by decide, Or.inr (by decide)⟩) (by decide)

/-- C4: a downloadable dataset parameter creates its scoped directory
(also with zero matches), resolves to that directory path, and writes
exactly one local file per workspace-index entry whose name starts with
the derived base name, in index order, each local name being the final
path segment of the remote name. -/
theorem downloadable_param_downloads (env : EtlEnv) (p : RunParameter) (base : String)
    (hty : p.var_type = "%DATASETID%")
    (hpfx : env.blobPfx p.value = some base)
    (hne : base ≠ "")
    (hmark : strContains base "%WORKSPACE_FILE%" = true) :
    (resolveParam env p).entry =
      some (env.paramsPath ++ "/" ++ p.parameter_id, p.var_type) ∧
    (resolveParam env p).mkdirs = [env.paramsPath ++ "/" ++ p.parameter_id] ∧
    (resolveParam env p).writes =
      (env.allFiles.filter (fun f =>
        strStartsWith f (strReplace base "%WORKSPACE_FILE%/" ""))).map
        (fun e => (pyJoin (env.paramsPath ++ "/" ++ p.parameter_id) (lastSegment e), e)) ∧
    (resolveParam env p).writes.length =
      (env.allFiles.filter (fun f =>
        strStartsWith f (strReplace base "%WORKSPACE_FILE%/" ""))).length := by
  refine ⟨?_, ?_, ?_, ?_⟩ <;>
    simp [resolveParam, hty, hpfx, hne, hmark, List.length_map]

/-- C4 witness: the bar_instance dataset parameter downloads the single
matching archive into its scoped directory. -/
theorem downloadable_param_downloads_witness :
    (resolveParam demoEnv ⟨"bar_instance", "d-inst", "%DATASETID%"⟩).entry =
      some ("/mnt/scenariorun-data/bar_instance", "%DATASETID%") ∧
    (resolveParam demoEnv ⟨"bar_instance", "d-inst", "%DATASETID%"⟩).mkdirs =
      ["/mnt/scenariorun-data/bar_instance"] ∧
    (resolveParam demoEnv ⟨"bar_instance", "d-inst", "%DATASETID%"⟩).writes =
      [("/mnt/scenariorun-data/bar_instance/brewery_instance.zip",
        "bar_instance/brewery_instance.zip")] ∧
    (resolveParam demoEnv ⟨"bar_instance", "d-inst", "%DATASETID%"⟩).writes.length = 1 := by
  have h := downloadable_param_downloads demoEnv ⟨"bar_instance", "d-inst", "%DATASETID%"⟩
    "%WORKSPACE_FILE%/bar_instance/" (by decide) (by decide) (by decide) (by decide)
  exact ⟨h.1.trans (by decide), h.2.1.trans (by decide),
    h.2.2.1.trans (by decide), h.2.2.2.trans (by decide)⟩

/-- Inversion of the row loop on success: the output has one record per
row, in row order, each produced from the row at the same index. -/
lemma mapRows_ok_inv {α : Type} (f : Row → Except String α) (rows : List Row) (out : List α)
    (h : mapRows f rows = Except.ok out) :
    out.length = rows.length ∧
    ∀ i (h1 : i < rows.length) (h2 : i < out.length),
      f (rows.get ⟨i, h1⟩) = Except.ok (out.get ⟨i, h2⟩) := by
  induction rows generalizing out with
  | nil =>
    simp [mapRows] at h
    subst h
    exact ⟨rfl, fun i h1 _ => absurd h1 (by simp)⟩
  | cons r rest ih =>
    cases hf : f r with
    | error e => simp [mapRows, hf, Bind.bind, Except.bind] at h
    | ok a =>
      cases hrest : mapRows f rest with
      | error e => simp [mapRows, hf, hrest, Bind.bind, Except.bind] at h
      | ok as =>
        simp [mapRows, hf, hrest, Bind.bind, Except.bind] at h
        subst h
        obtain ⟨hlen, hget⟩ := ih as hrest
        refine ⟨by simp [hlen], ?_⟩
        intro i h1 h2
        cases i with
        | zero => simpa using hf
        | succ n =>
          have h1n : n < rest.length := by simpa using h1
          have h2n : n < as.length := by simpa using h2
          simpa using hget n h1n h2n

/-- Every record of a successful row loop stems from some input row. -/
lemma mapRows_mem_inv {α : Type} (f : Row → Except String α) (rows : List Row) (out : List α)
    (h : mapRows f rows = Except.ok out) :
    ∀ a ∈ out, ∃ r ∈ rows, f r = Except.ok a := by
  induction rows generalizing out with
  | nil =>
    simp [mapRows] at h
    subst h
    intro a ha
    cases ha
  | cons r rest ih =>
    cases hf : f r with
    | error e => simp [mapRows, hf, Bind.bind, Except.bind] at h
    | ok a =>
      cases hrest : mapRows f rest with
      | error e => simp [mapRows, hf, hrest, Bind.bind, Except.bind] at h
      | ok as =>
        simp [mapRows, hf, hrest, Bind.bind, Except.bind] at h
        subst h
        intro x hx
        rcases List.mem_cons.1 hx with hxa | hxas
        · exact ⟨r, List.mem_cons_self r rest, hxa ▸ hf⟩
        · obtain ⟨r2, hr2, hfr2⟩ := ih as hrest x hxas
          exact ⟨r2, List.mem_cons_of_mem r hr2, hfr2⟩

/-- A failing row makes the whole row loop fail. -/
lemma mapRows_error_of_mem {α : Type} (f : Row → Except String α) (rows : List Row)
    (r : Row) (hr : r ∈ rows) (msg : String) (he : f r = Except.error msg) :
    ∃ m2, mapRows f rows = Except.error m2 := by
  induction rows with
  | nil => cases hr
  | cons q rest ih =>
    rcases List.mem_cons.1 hr with hrq | hrrest
    · subst hrq
      exact ⟨msg, by simp [mapRows, he, Bind.bind, Except.bind]⟩
    · cases hq : f q with
      | error e => exact ⟨e, by simp [mapRows, hq, Bind.bind, Except.bind]⟩
      | ok a =>
        obtain ⟨m2, hm2⟩ := ih hrrest
        exact ⟨m2, by simp [mapRows, hq, hm2, Bind.bind, Except.bind]⟩

/-- Inversion of a successful Customer-row translation. -/
lemma mkCustomer_ok_inv (r : Row) (rec : NodeRecord) (h : mkCustomer r = Except.ok rec) :
    ∃ iv sat ssat th,
      rowGet r "id" = some iv ∧ rowGet r "Satisfaction" = some sat ∧
      rowGet r "SurroundingSatisfaction" = some ssat ∧ rowGet r "Thirsty" = some th ∧
      rec = { type := "Customer", name := iv, params := customerParams iv sat ssat th } := by
  cases h1 : rowGet r "id" with
  | none => simp [mkCustomer, requireCol, h1, Bind.bind, Except.bind] at h
  | some iv =>
  cases h2 : rowGet r "Satisfaction" with
  | none => simp [mkCustomer, requireCol, h1, h2, Bind.bind, Except.bind] at h
  | some sat =>
  cases h3 : rowGet r "SurroundingSatisfaction" with
  | none => simp [mkCustomer, requireCol, h1, h2, h3, Bind.bind, Except.bind] at h
  | some ssat =>
  cases h4 : rowGet r "Thirsty" with
  | none => simp [mkCustomer, requireCol, h1, h2, h3, h4, Bind.bind, Except.bind] at h
  | some th =>
  simp [mkCustomer, requireCol, h1, h2, h3, h4, Bind.bind, Except.bind] at h
  exact ⟨iv, sat, ssat, th, rfl, rfl, rfl, rfl, h.symm⟩

/-- A Customer row missing one of its four expected columns fails. -/
lemma mkCustomer_error_of_missing (r : Row) (h : hasCustCols r = false) :
    ∃ msg, mkCustomer r = Except.error msg := by
  cases h1 : rowGet r "id" with
  | none =>
    exact ⟨"KeyError: " ++ "id", by simp [mkCustomer, requireCol, h1, Bind.bind, Except.bind]⟩
  | some iv =>
  cases h2 : rowGet r "Satisfaction" with
  | none =>
    exact ⟨"KeyError: " ++ "Satisfaction",
      by simp [mkCustomer, requireCol, h1, h2, Bind.bind, Except.bind]⟩
  | some sat =>
  cases h3 : rowGet r "SurroundingSatisfaction" with
  | none =>
    exact ⟨"KeyError: " ++ "SurroundingSatisfaction",
      by simp [mkCustomer, requireCol, h1, h2, h3, Bind.bind, Except.bind]⟩
  | some ssat =>
  cases h4 : rowGet r "Thirsty" with
  | none =>
    exact ⟨"KeyError: " ++ "Thirsty",
      by simp [mkCustomer, requireCol, h1, h2, h3, h4, Bind.bind, Except.bind]⟩
  | some th =>
  exfalso
  simp [hasCustCols, h1, h2, h3, h4] at h

/-- C6: a Customer CSV with K rows maps to exactly K Node Records of
type Customer in row order, each with name equal to the row's id column
and params built verbatim from the four expected columns; a row missing
an expected column makes the whole mapping fail. -/
theorem customer_csv_mapping (rows : List Row) :
    (∀ recs, mapCustomers rows = Except.ok recs →
      recs.length = rows.length ∧
      ∀ i (h1 : i < rows.length) (h2 : i < recs.length),
        ∃ iv sat ssat th,
          rowGet (rows.get ⟨i, h1⟩) "id" = some iv ∧
          rowGet (rows.get ⟨i, h1⟩) "Satisfaction" = some sat ∧
          rowGet (rows.get ⟨i, h1⟩) "SurroundingSatisfaction" = some ssat ∧
          rowGet (rows.get ⟨i, h1⟩) "Thirsty" = some th ∧
          recs.get ⟨i, h2⟩ =
            { type := "Customer", name := iv, params := customerParams iv sat ssat th }) ∧
    ((∃ r ∈ rows, hasCustCols r = false) → ∃ msg, mapCustomers rows = Except.error msg) := by
  constructor
  · intro recs h
    obtain ⟨hlen, hget⟩ := mapRows_ok_inv mkCustomer rows recs h
    refine ⟨hlen, ?_⟩
    intro i h1 h2
    exact mkCustomer_ok_inv _ _ (hget i h1 h2)
  · rintro ⟨r, hr, hcols⟩
    obtain ⟨msg, hmsg⟩ := mkCustomer_error_of_missing r hcols
    exact mapRows_error_of_mem mkCustomer rows r hr msg hmsg

/-- C6 witness: the two-row scenario CSV maps to two records, and a row
missing the Satisfaction columns is fatal. -/
theorem customer_csv_mapping_witness :
    [demoCust1, demoCust2].length = [custRow1, custRow2].length ∧
    (∃ msg, mapCustomers [[("id", "x")]] = Except.error msg) :=
  ⟨((customer_csv_mapping [custRow1, custRow2]).1 [demoCust1, demoCust2] (by decide)).1,
   (customer_csv_mapping [[("id", "x")]]).2 ⟨[("id", "x")], by decide, by decide⟩⟩

/-- C7: the Config Record Builder yields exactly the one Bar node named
MyBar whose params encode the three parameter values coerced to integer;
a value that is not integer-parseable or a missing parameter id makes it
fail, and a missing num_waiters is precisely the key-lookup error. -/
theorem config_record_builder (d : List (String × String × String)) :
    (∀ rec, configRecord d = Except.ok rec →
      ∃ nw rq st nwv rqv stv,
        pyDictGet d "num_waiters" = some nw ∧ pyIntParse nw.1 = some nwv ∧
        pyDictGet d "restock_quantity" = some rq ∧ pyIntParse rq.1 = some rqv ∧
        pyDictGet d "stock" = some st ∧ pyIntParse st.1 = some stv ∧
        rec = { type := "Bar", name := "MyBar", params := barParams nwv rqv stv }) ∧
    (configGood d = false → ∃ msg, configRecord d = Except.error msg) ∧
    (pyDictGet d "num_waiters" = none →
      configRecord d = Except.error ("KeyError: " ++ "num_waiters")) := by
  have harm1 : ∀ rec, configRecord d = Except.ok rec →
      ∃ nw rq st nwv rqv stv,
        pyDictGet d "num_waiters" = some nw ∧ pyIntParse nw.1 = some nwv ∧
        pyDictGet d "restock_quantity" = some rq ∧ pyIntParse rq.1 = some rqv ∧
        pyDictGet d "stock" = some st ∧ pyIntParse st.1 = some stv ∧
        rec = { type := "Bar", name := "MyBar", params := barParams nwv rqv stv } := by
    intro rec h
    cases h1 : pyDictGet d "num_waiters" with
    | none => simp [configRecord, requireParam, pyInt, h1, Bind.bind, Except.bind] at h
    | some nw =>
    cases h1v : pyIntParse nw.1 with
    | none => simp [configRecord, requireParam, pyInt, h1, h1v, Bind.bind, Except.bind] at h
    | some nwv =>
    cases h2 : pyDictGet d "restock_quantity" with
    | none => simp [configRecord, requireParam, pyInt, h1, h1v, h2, Bind.bind, Except.bind] at h
    | some rq =>
    cases h2v : pyIntParse rq.1 with
    | none =>
      simp [configRecord, requireParam, pyInt, h1, h1v, h2, h2v, Bind.bind, Except.bind] at h
    | some rqv =>
    cases h3 : pyDictGet d "stock" with
    | none =>
      simp [configRecord, requireParam, pyInt, h1, h1v, h2, h2v, h3, Bind.bind, Except.bind] at h
    | some st =>
    cases h3v : pyIntParse st.1 with
    | none =>
      simp [configRecord, requireParam, pyInt, h1, h1v, h2, h2v, h3, h3v,
        Bind.bind, Except.bind] at h
    | some stv =>
    simp [configRecord, requireParam, pyInt, h1, h1v, h2, h2v, h3, h3v,
      Bind.bind, Except.bind] at h
    exact ⟨nw, rq, st, nwv, rqv, stv, rfl, h1v, rfl, h2v, rfl, h3v, h.symm⟩
  refine ⟨harm1, ?_, ?_⟩
  · intro hbad
    cases hc : configRecord d with
    | error m => exact ⟨m, rfl⟩
    | ok rec =>
      exfalso
      obtain ⟨nw, rq, st, nwv, rqv, stv, e1, e2, e3, e4, e5, e6, _⟩ := harm1 rec hc
      simp [configGood, e1, e2, e3, e4, e5, e6] at hbad
  · intro h1
    simp [configRecord, requireParam, h1, Bind.bind, Except.bind]

/-- C7 witness: the scenario parameters build the Bar record; a
non-numeric num_waiters is fatal; an empty dict fails with the
num_waiters key-lookup error. -/
theorem config_record_builder_witness :
    (∃ nw rq st nwv rqv stv,
      pyDictGet demoDict "num_waiters" = some nw ∧ pyIntParse nw.1 = some nwv ∧
      pyDictGet demoDict "restock_quantity" = some rq ∧ pyIntParse rq.1 = some rqv ∧
      pyDictGet demoDict "stock" = some st ∧ pyIntParse st.1 = some stv ∧
      demoBar = { type := "Bar", name := "MyBar", params := barParams nwv rqv stv }) ∧
    (∃ msg, configRecord [("num_waiters", "five", "STRING")] = Except.error msg) ∧
    configRecord [] = Except.error ("KeyError: " ++ "num_waiters") :=
  ⟨(config_record_builder demoDict).1 demoBar (by decide),
   (config_record_builder [("num_waiters", "five", "STRING")]).2.1 (by decide),
   (config_record_builder []).2.2 (by decide)⟩

/-- Inversion of a successful edge-row translation. -/
lemma mkRel_ok_inv (ty : String) (row : Row) (r : RelRecord)
    (h : mkRel ty row = Except.ok r) :
    r.type = ty ∧ r.params = relParams ∧
    rowGet row "source" = some r.source ∧
    rowGet row "target" = some r.target ∧
    rowGet row "name" = some r.name := by
  cases h1 : rowGet row "source" with
  | none => simp [mkRel, requireCol, h1, Bind.bind, Except.bind] at h
  | some src =>
  cases h2 : rowGet row "target" with
  | none => simp [mkRel, requireCol, h1, h2, Bind.bind, Except.bind] at h
  | some tgt =>
  cases h3 : rowGet row "name" with
  | none => simp [mkRel, requireCol, h1, h2, h3, Bind.bind, Except.bind] at h
  | some nm =>
  simp [mkRel, requireCol, h1, h2, h3, Bind.bind, Except.bind] at h
  subst h
  exact ⟨rfl, rfl, rfl, rfl, rfl⟩

/-- Inversion of a successful pipeline run: all five stages succeeded
and the trace is exactly the writer trace over their outputs. -/
lemma runEtl_ok_inv (d : List (String × String × String))
    (custRows satRows linkRows : List Row) (status : Bool) (dsId : String)
    (trace : List ApiCall)
    (h : runEtl d custRows satRows linkRows status dsId = Except.ok trace) :
    ∃ bar bp customers sats links,
      configRecord d = Except.ok bar ∧
      requireParam d "bar_instance" = Except.ok bp ∧
      mapCustomers custRows = Except.ok customers ∧
      mapRels "satisfaction" satRows = Except.ok sats ∧
      mapRels "bar_vertex" linkRows = Except.ok links ∧
      trace = graphWriterTrace status dsId ([bar] ++ customers) (sats ++ links) := by
  cases h1 : configRecord d with
  | error e => simp [runEtl, h1, Bind.bind, Except.bind] at h
  | ok bar =>
  cases h2 : requireParam d "bar_instance" with
  | error e => simp [runEtl, h1, h2, Bind.bind, Except.bind] at h
  | ok bp =>
  cases h3 : mapCustomers custRows with
  | error e => simp [runEtl, h1, h2, h3, Bind.bind, Except.bind] at h
  | ok customers =>
  cases h4 : mapRels "satisfaction" satRows with
  | error e => simp [runEtl, h1, h2, h3, h4, Bind.bind, Except.bind] at h
  | ok sats =>
  cases h5 : mapRels "bar_vertex" linkRows with
  | error e => simp [runEtl, h1, h2, h3, h4, h5, Bind.bind, Except.bind] at h
  | ok links =>
  simp [runEtl, h1, h2, h3, h4, h5, Bind.bind, Except.bind] at h
  exact ⟨bar, bp, customers, sats, links, rfl, rfl, rfl, rfl, rfl, h.symm⟩

/-- C10: the relationship bulk-create call of any successful run carries
exactly the records the CSV Entity Mapper produced, satisfaction edges
then bar-vertex edges, each with type, source, target and name taken
from its CSV row and params equal to the fixed placeholder; nothing is
modified between mapping and write. -/
theorem relationships_written_verbatim (d : List (String × String × String))
    (custRows satRows linkRows : List Row) (status : Bool) (dsId : String)
    (trace : List ApiCall)
    (h : runEtl d custRows satRows linkRows status dsId = Except.ok trace) :
    ∃ sats links,
      mapRels "satisfaction" satRows = Except.ok sats ∧
      mapRels "bar_vertex" linkRows = Except.ok links ∧
      (∀ call ∈ trace, ∀ i2 rs, call = ApiCall.createRels i2 rs →
        i2 = dsId ∧ rs = sats ++ links) ∧
      (∀ r ∈ sats, r.type = "satisfaction" ∧ r.params = relParams ∧
        ∃ row ∈ satRows, rowGet row "source" = some r.source ∧
          rowGet row "target" = some r.target ∧ rowGet row "name" = some r.name) ∧
      (∀ r ∈ links, r.type = "bar_vertex" ∧ r.params = relParams ∧
        ∃ row ∈ linkRows, rowGet row "source" = some r.source ∧
          rowGet row "target" = some r.target ∧ rowGet row "name" = some r.name) := by
  obtain ⟨bar, bp, customers, sats, links, h1, h2, h3, h4, h5, htr⟩ :=
    runEtl_ok_inv d custRows satRows linkRows status dsId trace h
  refine ⟨sats, links, h4, h5, ?_, ?_, ?_⟩
  · intro call hcall i2 rs hceq
    subst hceq
    subst htr
    cases status with
    | false =>
      simp [graphWriterTrace] at hcall
      exact ⟨hcall.1, hcall.2⟩
    | true =>
      simp [graphWriterTrace] at hcall
      exact ⟨hcall.1, hcall.2⟩
  · intro r hr
    obtain ⟨row, hrow, hok⟩ := mapRows_mem_inv (mkRel "satisfaction") satRows sats h4 r hr
    obtain ⟨hty, hps, hs, ht, hn⟩ := mkRel_ok_inv "satisfaction" row r hok
    exact ⟨hty, hps, row, hrow, hs, ht, hn⟩
  · intro r hr
    obtain ⟨row, hrow, hok⟩ := mapRows_mem_inv (mkRel "bar_vertex") linkRows links h5 r hr
    obtain ⟨hty, hps, hs, ht, hn⟩ := mkRel_ok_inv "bar_vertex" row r hok
    exact ⟨hty, hps, row, hrow, hs, ht, hn⟩

/-- C10 witness: the verbatim-write statement evaluated on the concrete
scenario run and its trace. -/
theorem relationships_written_verbatim_witness :
    ∃ sats links,
      mapRels "satisfaction" [satRowD] = Except.ok sats ∧
      mapRels "bar_vertex" [linkRowD] = Except.ok links ∧
      (∀ call ∈ demoTrace, ∀ i2 rs, call = ApiCall.createRels i2 rs →
        i2 = "d-demo" ∧ rs = sats ++ links) ∧
      (∀ r ∈ sats, r.type = "satisfaction" ∧ r.params = relParams ∧
        ∃ row ∈ [satRowD], rowGet row "source" = some r.source ∧
          rowGet row "target" = some r.target ∧ rowGet row "name" = some r.name) ∧
      (∀ r ∈ links, r.type = "bar_vertex" ∧ r.params = relParams ∧
        ∃ row ∈ [linkRowD], rowGet row "source" = some r.source ∧
          rowGet row "target" = some r.target ∧ rowGet row "name" = some r.name) :=
  relationships_written_verbatim demoDict [custRow1, custRow2] [satRowD] [linkRowD]
    true "d-demo" demoTrace (by decide)
